import Mathlib

/-!
Verification of the HashiCorp technical-challenge repository: a Loader
script (`src/unnamed/part_000`, a TypeScript script using better-sqlite3)
that fetches departments and people from a GraphQL content API and loads
them into a SQLite database, and a Query Service
(`src/pages/api/hashicorp.ts`, a Next.js API handler) that joins people to
departments and filters by a `search` substring.

The embedding is shallow: tables are Lean lists of row structures, SQLite
transactions are explicit `Except`-valued folds that return the original
state on failure (better-sqlite3's `db.transaction` rolls back when the
wrapped function throws), and the external effects (network fetch, database
open, statement preparation, statement execution) are modelled by outcome
parameters, since whether they throw depends on the environment.
-/

/-- A row of the DEPARTMENTS table:
`ID VARCHAR(10) NOT NULL PRIMARY KEY, NAME VARCHAR(255) NOT NULL,
PARENT VARCHAR(10)` with a deferred self-referencing foreign key
`PARENT REFERENCES DEPARTMENTS(ID) DEFERRABLE INITIALLY DEFERRED`. -/
structure DeptRow where
  id : String
  name : String
  parent : Option String
deriving Repr, DecidableEq

/-- A row of the PEOPLE table:
`ID VARCHAR(10) NOT NULL PRIMARY KEY, NAME VARCHAR(255) NOT NULL,
AVATAR_URL VARCHAR(255) DEFAULT NULL, DEPARTMENT_ID VARCHAR(10) NOT NULL`
with an immediate foreign key `DEPARTMENT_ID REFERENCES DEPARTMENTS(ID)`. -/
structure PersonRow where
  id : String
  name : String
  avatar_url : Option String
  department_id : String
deriving Repr, DecidableEq

/-- The two tables of the hashicorp.sqlite database file. -/
structure DB where
  departments : List DeptRow
  people : List PersonRow
deriving Repr, DecidableEq

/-- `parent { name id }` sub-object of a department node from the API. -/
structure ParentRef where
  name : String
  id : String
deriving Repr, DecidableEq

/-- A department node as returned by the GraphQL query
`allDepartments(first: 100) { name id parent { name id } }`. -/
structure DepartmentNode where
  name : String
  id : String
  parent : Option ParentRef
deriving Repr, DecidableEq

/-- `avatar { url }` sub-object of a person record from the API. -/
structure AvatarRef where
  url : String
deriving Repr, DecidableEq

/-- `department { name }` sub-object of a person record from the API. -/
structure DeptNameRef where
  name : String
deriving Repr, DecidableEq

/-- A person record as returned by the GraphQL query
`allPeople(first: 100) { id name title avatar { url } department { name } }`
(the `title` field is fetched but never used by the Loader). -/
structure PersonRecord where
  id : String
  name : String
  avatar : Option AvatarRef
  department : Option DeptNameRef
deriving Repr, DecidableEq

/-- The combined result of the single GraphQL query. -/
structure QueryResult where
  allDepartments : List DepartmentNode
  allPeople : List PersonRecord
deriving Repr, DecidableEq

/-- JavaScript `x || null` applied to an optional string field reached by
optional chaining: `undefined` and the empty string (the falsy string) both
coerce to `null`. -/
def jsOrNull : Option String → Option String
  | none => none
  | some s => if s = "" then none else some s

/-- The Loader's department mapping:
`{ id: department.id, name: department.name,
   parent: department.parent?.id || null }`. -/
def mapDepartment (d : DepartmentNode) : DeptRow :=
  { id := d.id, name := d.name, parent := jsOrNull (d.parent.map ParentRef.id) }

/-- Bind parameters of one `INSERT INTO PEOPLE` statement. -/
structure PersonInsertParams where
  id : String
  name : String
  avatar_url : Option String
  department_name : Option String
deriving Repr, DecidableEq

/-- The Loader's person mapping:
`{ id: person.id, name: person.name,
   avatar_url: person.avatar?.url || null,
   department_name: person.department?.name }`
(note: `department_name` is optional chaining without the `|| null`
coercion, but `undefined` and `null` bind identically). -/
def mapPerson (p : PersonRecord) : PersonInsertParams :=
  { id := p.id, name := p.name,
    avatar_url := jsOrNull (p.avatar.map AvatarRef.url),
    department_name := p.department.map DeptNameRef.name }

/-- Kinds of SQLite constraint errors the modelled inserts can raise. -/
inductive SqlError where
  | primaryKey
  | notNull
  | foreignKey
deriving Repr, DecidableEq

/-- One run of the prepared statement
`INSERT INTO DEPARTMENTS (ID, NAME, PARENT) VALUES (:id, :name, :parent)`:
the primary-key constraint on ID is checked immediately; the deferred
self-referencing foreign key on PARENT is not checked here. -/
def insertDepartmentRow (table : List DeptRow) (d : DeptRow) :
    Except SqlError (List DeptRow) :=
  if table.any (fun r => r.id = d.id) then .error .primaryKey
  else .ok (table ++ [d])

/-- The deferred foreign-key condition for one DEPARTMENTS row: its PARENT,
when present, names an ID present in `table`. -/
def deptParentOk (table : List DeptRow) (r : DeptRow) : Bool :=
  match r.parent with
  | none => true
  | some p => table.any (fun q => q.id = p)

/-- The loop body of the `insertDepartments` transaction: run the insert
statement for each department in order, stopping at the first error. -/
def insertDeptRows : List DeptRow → List DeptRow → Except SqlError (List DeptRow)
  | table, [] => .ok table
  | table, d :: ds =>
    match insertDepartmentRow table d with
    | .error e => .error e
    | .ok t => insertDeptRows t ds

/-- The `insertDepartments` transaction: insert every row, then check the
deferred foreign key on PARENT for all rows at commit time
(`DEFERRABLE INITIALLY DEFERRED`); any failure aborts the transaction. -/
def insertDepartments (db : DB) (ds : List DeptRow) : Except SqlError DB :=
  match insertDeptRows db.departments ds with
  | .error e => .error e
  | .ok t =>
    if t.all (fun r => deptParentOk t r) then .ok { db with departments := t }
    else .error .foreignKey

/-- `insertDepartments` as better-sqlite3 runs it: on a throw the
transaction is rolled back, leaving the database exactly as before. -/
def deptTransaction (db : DB) (ds : List DeptRow) : DB × Option SqlError :=
  match insertDepartments db ds with
  | .ok db' => (db', none)
  | .error e => (db, some e)

/-- The scalar subquery `(SELECT ID FROM DEPARTMENTS WHERE NAME =
:department_name)`: the ID of the first row whose NAME equals the bound
name, or SQL NULL when the parameter is NULL or no row matches. -/
def lookupDeptByName (table : List DeptRow) (name : Option String) :
    Option String :=
  match name with
  | none => none
  | some n => (table.find? (fun d => d.name = n)).map DeptRow.id

/-- One run of the prepared statement
`INSERT INTO PEOPLE (ID, NAME, AVATAR_URL, DEPARTMENT_ID) VALUES
(:id, :name, :avatar_url, (SELECT ID FROM DEPARTMENTS WHERE NAME =
:department_name))`: the subquery resolves the department id by name; a
NULL result violates the NOT NULL constraint on DEPARTMENT_ID; the
primary key on ID and the immediate foreign key to DEPARTMENTS are also
checked. -/
def insertPersonRow (depts : List DeptRow) (people : List PersonRow)
    (p : PersonInsertParams) : Except SqlError (List PersonRow) :=
  match lookupDeptByName depts p.department_name with
  | none => .error .notNull
  | some did =>
    if people.any (fun r => r.id = p.id) then .error .primaryKey
    else if depts.any (fun d => d.id = did) then
      .ok (people ++ [⟨p.id, p.name, p.avatar_url, did⟩])
    else .error .foreignKey

/-- The loop body of the `insertPeople` transaction. -/
def insertPeopleRows (depts : List DeptRow) :
    List PersonRow → List PersonInsertParams → Except SqlError (List PersonRow)
  | people, [] => .ok people
  | people, p :: ps =>
    match insertPersonRow depts people p with
    | .error e => .error e
    | .ok t => insertPeopleRows depts t ps

/-- The `insertPeople` transaction over the whole mapped people list. -/
def insertPeople (db : DB) (ps : List PersonInsertParams) : Except SqlError DB :=
  match insertPeopleRows db.departments db.people ps with
  | .error e => .error e
  | .ok t => .ok { db with people := t }

/-- `insertPeople` as better-sqlite3 runs it: rolled back on a throw. -/
def peopleTransaction (db : DB) (ps : List PersonInsertParams) :
    DB × Option SqlError :=
  match insertPeople db ps with
  | .ok db' => (db', none)
  | .error e => (db, some e)

/-- Outcome of the `executeQuery` call against the content API, which runs
before the Loader's try block. -/
inductive FetchOutcome where
  | ok (r : QueryResult)
  | err
deriving Repr

/-- Observable outcome of one Loader run. -/
structure RunResult where
  db : DB
  handleReleased : Bool
  loggedError : Bool
  uncaught : Bool
deriving Repr, DecidableEq

/-- The Loader's `main`: open the database and fetch from the API (both
outside the try block), then inside try/catch/finally create the tables if
absent, run the departments transaction, then the people transaction;
errors thrown inside the try are logged and swallowed and `finally`
closes the handle. A fetch failure rejects `main` before the try block is
entered, so nothing catches it and `db.close()` never runs. `db0` is the
state of the tables in the existing database file (empty tables on a fresh
file). -/
def loaderMain (fetch : FetchOutcome) (db0 : DB) : RunResult :=
  match fetch with
  | .err => { db := db0, handleReleased := false, loggedError := false, uncaught := true }
  | .ok result =>
    match deptTransaction db0 (result.allDepartments.map mapDepartment) with
    | (_, some _) => { db := db0, handleReleased := true, loggedError := true, uncaught := false }
    | (db1, none) =>
      match peopleTransaction db1 (result.allPeople.map mapPerson) with
      | (_, some _) => { db := db1, handleReleased := true, loggedError := true, uncaught := false }
      | (db2, none) => { db := db2, handleReleased := true, loggedError := false, uncaught := false }

/-- SQLite `LIKE` comparison of a pattern character against a text
character: `_` matches any single character, anything else matches
ASCII-case-insensitively (SQLite's default LIKE folds case only for ASCII,
as does Lean's `Char.toLower`). -/
def likeChar (pc c : Char) : Bool :=
  pc = '_' || pc.toLower = c.toLower

/-- SQLite `LIKE` pattern matching: `%` matches any (possibly empty)
character sequence, `_` any single character, other characters match
ASCII-case-insensitively. -/
def likeMatch : List Char → List Char → Bool
  | [], cs => cs.isEmpty
  | p :: ps, cs =>
    if p = '%' then
      likeMatch ps cs ||
        (match cs with
         | [] => false
         | _ :: cs' => likeMatch (p :: ps) cs')
    else
      match cs with
      | [] => false
      | c :: cs' => likeChar p c && likeMatch ps cs'
termination_by ps cs => (ps.length, cs.length)

/-- The LIKE pattern the handler interpolates for a search value `s`:
`'%s%'`. -/
def likePattern (s : String) : List Char :=
  '%' :: s.data ++ ['%']

/-- One row of the handler's SELECT:
`P.ID AS PERSON_ID, P.NAME AS PERSON_NAME, P.AVATAR_URL,
D.ID AS DEPARTMENT_ID, D.NAME AS DEPARTMENT_NAME`. -/
structure JoinRow where
  PERSON_ID : String
  PERSON_NAME : String
  AVATAR_URL : Option String
  DEPARTMENT_ID : String
  DEPARTMENT_NAME : String
deriving Repr, DecidableEq

/-- `FROM PEOPLE P INNER JOIN DEPARTMENTS D ON P.DEPARTMENT_ID = D.ID`:
every (person, department) pair with matching ids yields a row; a person
whose DEPARTMENT_ID matches no department row yields none. -/
def joinRows (db : DB) : List JoinRow :=
  db.people.flatMap (fun p =>
    (db.departments.filter (fun d => d.id = p.department_id)).map (fun d =>
      ⟨p.id, p.name, p.avatar_url, d.id, d.name⟩))

/-- The rows returned by the handler's prepared statement: the full inner
join, filtered by `WHERE P.NAME LIKE '%searchParam%'` exactly when the
search parameter is non-empty. This is the semantics of the interpolated
SQL text for search values that do not themselves alter the SQL (the
injection weakness is modelled by the statement-preparation outcome of
`handler`, not here). -/
def queryRows (searchParam : String) (db : DB) : List JoinRow :=
  if searchParam = "" then joinRows db
  else (joinRows db).filter
    (fun r => likeMatch (likePattern searchParam) r.PERSON_NAME.data)

/-- The `avatar: { url: row.AVATAR_URL }` sub-object of a response record. -/
structure AvatarOut where
  url : Option String
deriving Repr, DecidableEq

/-- The `department: { id, name }` sub-object of a response record. -/
structure DeptOut where
  id : String
  name : String
deriving Repr, DecidableEq

/-- One element of the response's `results` array:
`{ id, name, avatar: { url }, department: { id, name } }`. -/
structure PersonOut where
  id : String
  name : String
  avatar : AvatarOut
  department : DeptOut
deriving Repr, DecidableEq

/-- The handler's row-shaping map over the fetched rows. -/
def mapRow (r : JoinRow) : PersonOut :=
  ⟨r.PERSON_ID, r.PERSON_NAME, ⟨r.AVATAR_URL⟩, ⟨r.DEPARTMENT_ID, r.DEPARTMENT_NAME⟩⟩

/-- The HTTP response `res.status(200).json({ results: data })`. -/
structure Response where
  status : Nat
  results : List PersonOut
deriving Repr, DecidableEq

/-- Observable outcome of one handler invocation: the response sent
(`none` when an uncaught exception escaped the handler), and whether a
database connection was opened and whether it was closed. -/
structure HandlerTrace where
  response : Option Response
  connOpened : Bool
  connClosed : Bool
deriving Repr, DecidableEq

/-- The API handler of `src/pages/api/hashicorp.ts`. `search` is the
`search` query parameter (`query.search || ''` turns absence into the
empty string). `openOk`, `prepareOk`, `execOk` are the outcomes of
`new Database(...)`, `db.prepare(sql)` and `stmt.all()`: the first two run
before the try block, so their failures escape the handler uncaught and
skip the `finally { db.close() }`; a `stmt.all()` failure is caught,
logged, leaves `data` as `[]`, and still reaches
`res.status(200).json({ results: data })` after the finally. -/
def handler (search : Option String) (db : DB)
    (openOk prepareOk execOk : Bool) : HandlerTrace :=
  let searchParam := match search with | none => "" | some s => s
  if !openOk then ⟨none, false, false⟩
  else if !prepareOk then ⟨none, true, false⟩
  else if !execOk then ⟨some ⟨200, []⟩, true, true⟩
  else ⟨some ⟨200, (queryRows searchParam db).map mapRow⟩, true, true⟩

/-- The single-quote character, which terminates the SQL string literal the
handler interpolates the search value into. -/
def squote : Char := Char.ofNat 39

/-! ## Claim C1 -/

/-- C1 counterexample: the claim says the handler responds with status 200
whatever error occurs internally, but when `db.prepare(sql)` throws (it
runs before the try/catch, e.g. when the search value breaks the
interpolated SQL) the handler sends no response at all. -/
theorem c1_counterexample :
    (handler (some "x") ⟨[], []⟩ true false true).response = none := by
  rfl

/-- C1 (amended): when opening the database and preparing the statement
succeed, the handler responds with status 200 and a `{results: [...]}`
body for every search parameter and every statement-execution outcome;
an execution error is caught and logged and only leaves the results
empty. -/
theorem c1_status_200 (search : Option String) (db : DB) (execOk : Bool) :
    ∃ r, (handler search db true true execOk).response = some r ∧
      r.status = 200 := by
  cases execOk <;> simp [handler]

/-! ## Claim C2 -/

/-- C2 counterexample: the claim says any error during the run, including
a network/API failure, is caught and logged and the handle is always
released; but `executeQuery` runs before the Loader's try block, so a
fetch failure escapes `main` uncaught and `db.close()` never runs. -/
theorem c2_counterexample :
    (loaderMain FetchOutcome.err ⟨[], []⟩).handleReleased = false ∧
      (loaderMain FetchOutcome.err ⟨[], []⟩).uncaught = true := by
  exact ⟨rfl, rfl⟩

/-- C2 (amended): once the fetch has succeeded, any error raised inside
the try block (table creation, department or people transaction) is
caught at the top level and never rethrown, and the database handle is
always released by the `finally` before the run returns; a fetch failure,
however, escapes uncaught without releasing the handle. -/
theorem c2_try_errors_swallowed (r : QueryResult) (db0 : DB) :
    (loaderMain (FetchOutcome.ok r) db0).uncaught = false ∧
      (loaderMain (FetchOutcome.ok r) db0).handleReleased = true := by
  refine ⟨?_, ?_⟩ <;>
    · simp only [loaderMain]
      split
      · rfl
      · split <;> rfl

/-! ## Claim C9 -/

/-- C9 counterexample: the claim says the connection is always closed on
both the success and the error path; but `db.prepare(sql)` runs after
`new Database(...)` and before the try/finally, so a preparation error
leaves the handler with an opened, never-closed connection. -/
theorem c9_counterexample :
    (handler (some "y") ⟨[⟨"d", "D", none⟩], []⟩ true false true).connOpened = true ∧
      (handler (some "y") ⟨[⟨"d", "D", none⟩], []⟩ true false true).connClosed = false := by
  exact ⟨rfl, rfl⟩

/-- C9 (amended): on every path that reaches statement execution — the
success path and the caught execution-error path — the connection opened
by the handler is closed by the `finally` before the response is sent;
only a statement-preparation failure (which precedes the try) skips the
close. -/
theorem c9_conn_closed (search : Option String) (db : DB) (execOk : Bool) :
    (handler search db true true execOk).connClosed = true := by
  cases execOk <;> rfl

/-! ## Claims C3 and C4: the departments transaction -/

/-- The insert loop only ever appends: a successful run of all the insert
statements leaves the table equal to the old table followed by the batch. -/
theorem insertDeptRows_ok_append (ds : List DeptRow) :
    ∀ (table t : List DeptRow), insertDeptRows table ds = .ok t →
      t = table ++ ds := by
  induction ds with
  | nil =>
    intro table t h
    simp only [insertDeptRows] at h
    cases h
    simp
  | cons d ds ih =>
    intro table t h
    simp only [insertDeptRows, insertDepartmentRow] at h
    split at h
    · cases h
    · rename_i t' heq
      split at heq
      · cases heq
      · cases heq
        have := ih _ _ h
        simp [this]

/-- Characterisation of a successful `insertDepartments` transaction: the
departments table is the old table with the batch appended, the people
table is untouched, and the deferred parent check holds of the result. -/
theorem insertDepartments_ok (db : DB) (ds : List DeptRow) (db' : DB)
    (h : insertDepartments db ds = .ok db') :
    db' = ⟨db.departments ++ ds, db.people⟩ ∧
      (db'.departments.all fun r => deptParentOk db'.departments r) = true := by
  unfold insertDepartments at h
  split at h
  · cases h
  · rename_i t h2
    split at h
    · cases h
      have ht := insertDeptRows_ok_append ds db.departments t h2
      subst ht
      exact ⟨rfl, by assumption⟩
    · cases h

/-- C3: whenever the departments transaction commits, every department row
with a PARENT references the ID of a row present in the DEPARTMENTS table
after commit — the deferred foreign key is what gets checked at commit
time, regardless of the order the rows were inserted in. -/
theorem c3_parent_exists_post_commit (db : DB) (ds : List DeptRow) (db' : DB)
    (h : insertDepartments db ds = .ok db') :
    ∀ r ∈ db'.departments, ∀ p, r.parent = some p →
      ∃ q ∈ db'.departments, q.id = p := by
  intro r hr p hp
  have hall := (insertDepartments_ok db ds db' h).2
  rw [List.all_eq_true] at hall
  have := hall r hr
  unfold deptParentOk at this
  rw [hp] at this
  simpa using this

/-- C3 witness: loading a child department before its parent commits, and
post-commit the child row's parent id "p" is the id of a row present in
the table. -/
theorem c3_witness :
    ∃ q ∈ ([⟨"c", "Child", some "p"⟩, ⟨"p", "Parent", none⟩] : List DeptRow),
      q.id = "p" :=
  c3_parent_exists_post_commit ⟨[], []⟩
    [⟨"c", "Child", some "p"⟩, ⟨"p", "Parent", none⟩]
    ⟨[⟨"c", "Child", some "p"⟩, ⟨"p", "Parent", none⟩], []⟩ (by rfl)
    ⟨"c", "Child", some "p"⟩ (List.mem_cons_self _ _) "p" rfl

/-- C4: the departments batch is atomic — either the transaction commits
with every mapped row appended to DEPARTMENTS (and PEOPLE untouched), or
it reports an error and the database is exactly as it was before. -/
theorem c4_departments_atomic (db : DB) (nodes : List DepartmentNode) :
    ((deptTransaction db (nodes.map mapDepartment)).2 = none ∧
      (deptTransaction db (nodes.map mapDepartment)).1 =
        ⟨db.departments ++ nodes.map mapDepartment, db.people⟩) ∨
    ((deptTransaction db (nodes.map mapDepartment)).2 ≠ none ∧
      (deptTransaction db (nodes.map mapDepartment)).1 = db) := by
  unfold deptTransaction
  rcases h : insertDepartments db (nodes.map mapDepartment) with e | db'
  · right
    simp [h]
  · left
    have := (insertDepartments_ok db _ db' h).1
    simp [h, this]

/-! ## Claims C5 and C6: the query endpoint -/

/-- Filtering the join on the person-name column is the same as joining
only the people whose name passes the filter: every join row produced for
a person carries that person's NAME, so the WHERE clause selects people. -/
theorem joinRows_filter_name (depts : List DeptRow) (people : List PersonRow)
    (q : String → Bool) :
    (joinRows ⟨depts, people⟩).filter (fun r => q r.PERSON_NAME) =
      joinRows ⟨depts, people.filter (fun p => q p.name)⟩ := by
  induction people with
  | nil => rfl
  | cons p ps ih =>
    simp only [joinRows, List.flatMap_cons, List.filter_append, List.filter_cons] at *
    rw [List.filter_map]
    have hpred : (((fun r => q r.PERSON_NAME) ∘ fun d : DeptRow =>
        ({ PERSON_ID := p.id, PERSON_NAME := p.name, AVATAR_URL := p.avatar_url,
           DEPARTMENT_ID := d.id, DEPARTMENT_NAME := d.name } : JoinRow))) =
        fun _ => q p.name := by
      funext d
      rfl
    rw [hpred]
    by_cases hq : q p.name
    · have hc : (fun _ : DeptRow => q p.name) = fun _ => true := by
        funext d
        rw [hq]
      rw [hc, List.filter_true, ih]
      simp only [hq, if_true, List.flatMap_cons]
    · have hq2 : q p.name = false := by
        rwa [Bool.not_eq_true] at hq
      have hc : (fun _ : DeptRow => q p.name) = fun _ => false := by
        funext d
        rw [hq2]
      rw [hc, List.filter_false, ih]
      simp [hq2]

/-- C5: for a non-empty search value that does not contain a single quote
(a quote would alter the interpolated SQL text itself — the injection
weakness the spec flags separately), the endpoint returns exactly the
people whose NAME matches `LIKE '%s%'`, each joined to the department row
whose ID equals their DEPARTMENT_ID; people with no matching department
row contribute nothing. -/
theorem c5_search_filters_by_like (s : String) (db : DB) (hne : s ≠ "")
    (_hq : squote ∉ s.data) :
    (handler (some s) db true true true).response =
      some ⟨200, (joinRows ⟨db.departments,
        db.people.filter (fun p => likeMatch (likePattern s) p.name.data)⟩).map mapRow⟩ := by
  have h1 : (handler (some s) db true true true).response =
      some ⟨200, ((joinRows db).filter
        (fun r => likeMatch (likePattern s) r.PERSON_NAME.data)).map mapRow⟩ := by
    simp [handler, queryRows, hne]
  rw [h1]
  have h2 := joinRows_filter_name db.departments db.people
    (fun nm => likeMatch (likePattern s) nm.data)
  exact congrArg (fun l => some (⟨200, l.map mapRow⟩ : Response)) h2

/-- C5 witness: searching for `"an"` over a concrete database keeps
exactly the people whose name contains "an" (here Anna and Juan, by
SQLite LIKE's ASCII-case-insensitive matching). -/
theorem c5_witness :
    (handler (some "an")
        ⟨[⟨"d1", "Engineering", none⟩],
         [⟨"p1", "Anna", some "u1", "d1"⟩, ⟨"p2", "Bob", none, "d1"⟩,
          ⟨"p3", "Juan", none, "d1"⟩]⟩ true true true).response =
      some ⟨200, (joinRows ⟨[⟨"d1", "Engineering", none⟩],
        ([⟨"p1", "Anna", some "u1", "d1"⟩, ⟨"p2", "Bob", none, "d1"⟩,
          ⟨"p3", "Juan", none, "d1"⟩] : List PersonRow).filter
            (fun p => likeMatch (likePattern "an") p.name.data)⟩).map mapRow⟩ :=
  c5_search_filters_by_like "an"
    ⟨[⟨"d1", "Engineering", none⟩],
     [⟨"p1", "Anna", some "u1", "d1"⟩, ⟨"p2", "Bob", none, "d1"⟩,
      ⟨"p3", "Juan", none, "d1"⟩]⟩ (by decide) (by decide)

/-- C6: with the search parameter absent (`query.search || ''` turns
absence into the empty string) or empty, no WHERE clause is added and the
endpoint returns every person joined to their department, shaped by
`mapRow` as `{id, name, avatar: {url}, department: {id, name}}`. -/
theorem c6_empty_search_returns_all (db : DB) :
    (handler none db true true true).response =
        some ⟨200, (joinRows db).map mapRow⟩ ∧
      (handler (some "") db true true true).response =
        some ⟨200, (joinRows db).map mapRow⟩ := by
  exact ⟨rfl, rfl⟩

/-! ## Claims C7 and C8: the people transaction -/

/-- Characterisation of one successful run of the people insert statement:
the name lookup produced a department id and the new row, carrying that
id as DEPARTMENT_ID, was appended. -/
theorem insertPersonRow_ok (depts : List DeptRow) (people t : List PersonRow)
    (p : PersonInsertParams) (h : insertPersonRow depts people p = .ok t) :
    ∃ did, lookupDeptByName depts p.department_name = some did ∧
      t = people ++ [⟨p.id, p.name, p.avatar_url, did⟩] := by
  unfold insertPersonRow at h
  split at h
  · cases h
  · rename_i did hdid
    split at h
    · cases h
    · split at h
      · cases h
        exact ⟨did, hdid, rfl⟩
      · cases h

/-- The people insert loop only appends, so rows present before any suffix
of the loop survive to the final table. -/
theorem insertPeopleRows_preserves (depts : List DeptRow)
    (ps : List PersonInsertParams) :
    ∀ (people t : List PersonRow), insertPeopleRows depts people ps = .ok t →
      ∀ r ∈ people, r ∈ t := by
  induction ps with
  | nil =>
    intro people t h r hr
    simp only [insertPeopleRows] at h
    cases h
    exact hr
  | cons p ps ih =>
    intro people t h r hr
    simp only [insertPeopleRows] at h
    split at h
    · cases h
    · rename_i t' heq
      obtain ⟨did, _, ht'⟩ := insertPersonRow_ok depts people t' p heq
      exact ih t' t h r (ht' ▸ List.mem_append_left _ hr)

/-- Every parameter record of a successful people insert loop had its
department resolved by the name lookup, and its row — carrying the
resolved id — is in the final table. -/
theorem insertPeopleRows_resolves (depts : List DeptRow)
    (ps : List PersonInsertParams) :
    ∀ (people t : List PersonRow), insertPeopleRows depts people ps = .ok t →
      ∀ p ∈ ps, ∃ did, lookupDeptByName depts p.department_name = some did ∧
        (⟨p.id, p.name, p.avatar_url, did⟩ : PersonRow) ∈ t := by
  induction ps with
  | nil =>
    intro people t h p hp
    cases hp
  | cons q qs ih =>
    intro people t h p hp
    simp only [insertPeopleRows] at h
    split at h
    · cases h
    · rename_i t' heq
      obtain ⟨did, hdid, ht'⟩ := insertPersonRow_ok depts people t' q heq
      rcases List.mem_cons.mp hp with hpq | hpqs
      · subst hpq
        refine ⟨did, hdid, ?_⟩
        have hmem : (⟨p.id, p.name, p.avatar_url, did⟩ : PersonRow) ∈ t' := by
          rw [ht']
          exact List.mem_append_right _ (List.mem_singleton.mpr rfl)
        exact insertPeopleRows_preserves depts qs t' t h _ hmem
      · exact ih t' t h p hpqs

/-- Unfolding of a successful scalar-subquery lookup: the bound name was
non-NULL and some table row has that NAME and the returned ID. -/
theorem lookupDeptByName_some (table : List DeptRow) (oname : Option String)
    (did : String) (h : lookupDeptByName table oname = some did) :
    ∃ n d, oname = some n ∧ d ∈ table ∧ d.name = n ∧ d.id = did := by
  match oname with
  | none => cases h
  | some n =>
    unfold lookupDeptByName at h
    rw [Option.map_eq_some'] at h
    obtain ⟨d, hfind, hid⟩ := h
    exact ⟨n, d, rfl, List.mem_of_find?_eq_some hfind,
      by simpa using List.find?_some hfind, hid⟩

/-- Introduction rule for the handler's inner join: a person row and a
department row with matching ids produce a join row. -/
theorem mem_joinRows (db : DB) (pr : PersonRow) (d : DeptRow)
    (hp : pr ∈ db.people) (hd : d ∈ db.departments)
    (hid : d.id = pr.department_id) :
    (⟨pr.id, pr.name, pr.avatar_url, d.id, d.name⟩ : JoinRow) ∈ joinRows db := by
  unfold joinRows
  rw [List.mem_flatMap]
  refine ⟨pr, hp, ?_⟩
  apply List.mem_map_of_mem
  rw [List.mem_filter]
  exact ⟨hd, by simp [hid]⟩

/-- C7: in a committed people transaction every person's DEPARTMENT_ID was
resolved at insert time by name — some department row of the pre-existing
DEPARTMENTS table has the person's reported department name and its ID is
what the stored row carries — and querying afterwards yields a join row
pairing that person with a department whose name equals the person's
original department name. -/
theorem c7_department_resolved_by_name (db : DB) (ps : List PersonInsertParams)
    (db' : DB) (h : insertPeople db ps = .ok db') :
    ∀ p ∈ ps, ∃ n d, p.department_name = some n ∧ d ∈ db.departments ∧
      d.name = n ∧
      (⟨p.id, p.name, p.avatar_url, d.id⟩ : PersonRow) ∈ db'.people ∧
      (⟨p.id, p.name, p.avatar_url, d.id, d.name⟩ : JoinRow) ∈ joinRows db' := by
  unfold insertPeople at h
  split at h
  · cases h
  · rename_i t heq
    cases h
    intro p hp
    obtain ⟨did, hdid, hmem⟩ :=
      insertPeopleRows_resolves db.departments ps db.people t heq p hp
    obtain ⟨n, d, hn, hd, hdname, hdid2⟩ :=
      lookupDeptByName_some db.departments p.department_name did hdid
    subst hdid2
    exact ⟨n, d, hn, hd, hdname, hmem,
      mem_joinRows ⟨db.departments, t⟩ ⟨p.id, p.name, p.avatar_url, d.id⟩ d
        hmem hd rfl⟩

/-- C7 witness: loading Anna with department name "Eng" against a table
holding department ("d1", "Eng") stores DEPARTMENT_ID "d1", and the join
afterwards pairs her with the department named "Eng". -/
theorem c7_witness :
    ∃ n d, (some "Eng" : Option String) = some n ∧
      d ∈ ([⟨"d1", "Eng", none⟩] : List DeptRow) ∧ d.name = n ∧
      (⟨"p1", "Anna", none, d.id⟩ : PersonRow) ∈
        (⟨[⟨"d1", "Eng", none⟩], [⟨"p1", "Anna", none, "d1"⟩]⟩ : DB).people ∧
      (⟨"p1", "Anna", none, d.id, d.name⟩ : JoinRow) ∈
        joinRows ⟨[⟨"d1", "Eng", none⟩], [⟨"p1", "Anna", none, "d1"⟩]⟩ :=
  c7_department_resolved_by_name ⟨[⟨"d1", "Eng", none⟩], []⟩
    [⟨"p1", "Anna", none, some "Eng"⟩]
    ⟨[⟨"d1", "Eng", none⟩], [⟨"p1", "Anna", none, "d1"⟩]⟩ (by rfl)
    ⟨"p1", "Anna", none, some "Eng"⟩ (List.mem_singleton.mpr rfl)

/-- If some parameter record's name lookup comes up NULL, the people
insert loop necessarily throws (that record's insert violates NOT NULL on
DEPARTMENT_ID; an earlier record may abort the loop even sooner). -/
theorem insertPeopleRows_fails (depts : List DeptRow)
    (ps : List PersonInsertParams) :
    ∀ people : List PersonRow,
      (∃ p ∈ ps, lookupDeptByName depts p.department_name = none) →
      ∃ e, insertPeopleRows depts people ps = .error e := by
  induction ps with
  | nil =>
    rintro people ⟨p, hp, _⟩
    cases hp
  | cons q qs ih =>
    rintro people ⟨p, hp, hnone⟩
    rcases List.mem_cons.mp hp with hpq | hpqs
    · subst hpq
      exact ⟨.notNull, by simp only [insertPeopleRows, insertPersonRow, hnone]⟩
    · cases hq : insertPersonRow depts people q with
      | error e => exact ⟨e, by simp only [insertPeopleRows, hq]⟩
      | ok t =>
        obtain ⟨e, he⟩ := ih t ⟨p, hpqs, hnone⟩
        exact ⟨e, by simp only [insertPeopleRows, hq, he]⟩

/-- C8: when some person's reported department name matches no DEPARTMENTS
row, the people transaction throws and better-sqlite3 rolls it back: the
database — in particular the PEOPLE table — is exactly as it was before,
so no person of the batch is committed. -/
theorem c8_missing_department_aborts (db : DB) (ps : List PersonInsertParams)
    (p : PersonInsertParams) (hp : p ∈ ps)
    (hnone : lookupDeptByName db.departments p.department_name = none) :
    ∃ e, peopleTransaction db ps = (db, some e) := by
  obtain ⟨e, he⟩ := insertPeopleRows_fails db.departments ps db.people ⟨p, hp, hnone⟩
  exact ⟨e, by simp only [peopleTransaction, insertPeople, he]⟩

/-- C8 witness: a batch whose only person reports the unknown department
"Marketing" aborts, leaving the database unchanged. -/
theorem c8_witness :
    ∃ e, peopleTransaction ⟨[⟨"d1", "Engineering", none⟩], []⟩
        [⟨"p1", "Anna", none, some "Marketing"⟩] =
      (⟨[⟨"d1", "Engineering", none⟩], []⟩, some e) :=
  c8_missing_department_aborts ⟨[⟨"d1", "Engineering", none⟩], []⟩
    [⟨"p1", "Anna", none, some "Marketing"⟩]
    ⟨"p1", "Anna", none, some "Marketing"⟩ (by simp) (by decide)

/-! ## Claim C10 -/

/-- C10: the `|| null` coercions in the Loader's two mapping callbacks
turn a present-but-falsy field into the NULL marker: a parent object with
an empty-string id yields a NULL PARENT (a root department), and an
avatar object with an empty-string url yields a NULL AVATAR_URL. -/
theorem c10_falsy_coerced_to_null :
    (∀ (d : DepartmentNode) (pr : ParentRef), d.parent = some pr →
      pr.id = "" → (mapDepartment d).parent = none) ∧
    (∀ (p : PersonRecord) (av : AvatarRef), p.avatar = some av →
      av.url = "" → (mapPerson p).avatar_url = none) := by
  constructor
  · intro d pr hpr hid
    simp [mapDepartment, hpr, jsOrNull, hid]
  · intro p av hav hurl
    simp [mapPerson, hav, jsOrNull, hurl]

/-- C10 witness: a department whose parent object is present with id `""`
maps to a NULL parent, and a person whose avatar object is present with
url `""` maps to a NULL AVATAR_URL. -/
theorem c10_witness :
    (mapDepartment ⟨"Design", "d2", some ⟨"Root", ""⟩⟩).parent = none ∧
      (mapPerson ⟨"p9", "Ann", some ⟨""⟩, some ⟨"Design"⟩⟩).avatar_url = none :=
  ⟨c10_falsy_coerced_to_null.1 ⟨"Design", "d2", some ⟨"Root", ""⟩⟩
      ⟨"Root", ""⟩ rfl rfl,
    c10_falsy_coerced_to_null.2 ⟨"p9", "Ann", some ⟨""⟩, some ⟨"Design"⟩⟩
      ⟨""⟩ rfl rfl⟩
